import Mathlib

/-!
Shallow embedding of the harvesting pipeline in `src/webscrape.py`:
the URL classifier (`looks_like_article`), structured-data extraction
(`extract_json_ld`), the metadata extractor (`scrape_article`), link
discovery (`get_article_links`) and the orchestrator (`main`, embedded
as `runMain`).  Browser-effect boundaries (navigation, selector queries,
attribute reads) are embedded as explicit page-behaviour records; the
Python standard-library helpers the code calls (`urllib.parse.urlparse`,
`urllib.parse.urljoin`, `re.sub` whitespace collapsing, `str.strip`)
are embedded following the CPython implementations.
-/

/-- Python substring test: `pat in s` on strings. -/
def strContains (s pat : String) : Bool :=
  s.toList.tails.any (fun t => pat.toList.isPrefixOf t)

/-- Python `s.count(c)` for a single character. -/
def countChar (s : String) (c : Char) : Nat :=
  (s.toList.filter (fun x => x == c)).length

/-- The ASCII whitespace characters matched by Python's `\s` regex class
and stripped by `str.strip()` (space, tab, newline, carriage return,
vertical tab, form feed). -/
def isPySpace (c : Char) : Bool :=
  c == ' ' || c == '\t' || c == '\n' || c == '\r' || c == '\x0b' || c == '\x0c'

/-- Python `str.strip()`: drop leading and trailing whitespace. -/
def pyStrip (s : String) : String :=
  String.mk (((s.toList.dropWhile isPySpace).reverse.dropWhile isPySpace).reverse)

/-- Collapse every maximal run of whitespace characters into a single
space, as `re.sub(r"\s+", " ", s)` does.  The boolean argument records
whether the previous character was whitespace (so the run emits only
one space). -/
def collapseWSAux : Bool → List Char → List Char
  | _, [] => []
  | inWS, c :: rest =>
    if isPySpace c then
      (if inWS then collapseWSAux true rest else ' ' :: collapseWSAux true rest)
    else c :: collapseWSAux false rest

/-- `re.sub(r"\s+", " ", s)`. -/
def collapseWS (cs : List Char) : List Char :=
  collapseWSAux false cs

/-- The cleaning step of `scrape_article`:
`re.sub(r"\s+", " ", s).strip()`. -/
def normalizeWS (s : String) : String :=
  pyStrip (String.mk (collapseWS s.toList))

/-!
Embedding of `urllib.parse` (CPython) as used by the scraper:
`urlparse` and `urljoin`.  All character-level work is done on
`List Char` with structural recursion so that terms evaluate inside
the kernel.
-/

/-- Characters admissible in a URL scheme (`urllib.parse.scheme_chars`). -/
def isSchemeChar (c : Char) : Bool :=
  c.isAlphanum || c == '+' || c == '-' || c == '.'

/-- Split a character list at the first occurrence of `c`; `none` when
`c` does not occur. -/
def splitOnceAux (acc : List Char) (c : Char) : List Char → Option (List Char × List Char)
  | [] => none
  | x :: rest => if x == c then some (acc.reverse, rest) else splitOnceAux (x :: acc) c rest

/-- Split at the first occurrence of a character. -/
def splitOnce (cs : List Char) (c : Char) : Option (List Char × List Char) :=
  splitOnceAux [] c cs

/-- Split a character list at the last occurrence of `c`:
returns (part before, part after). -/
def splitLast (cs : List Char) (c : Char) : Option (List Char × List Char) :=
  match splitOnce cs.reverse c with
  | some (a, b) => some (b.reverse, a.reverse)
  | none => none

/-- Python `s.split(c)` for a one-character separator. -/
def splitOnCharAux (c : Char) (acc : List Char) : List Char → List (List Char)
  | [] => [acc.reverse]
  | x :: rest =>
    if x == c then acc.reverse :: splitOnCharAux c [] rest
    else splitOnCharAux c (x :: acc) rest

/-- Python `s.split(c)`. -/
def splitOnChar (cs : List Char) (c : Char) : List (List Char) :=
  splitOnCharAux c [] cs

/-- Join segments with the separator `/` (Python `"/".join(...)`). -/
def joinSegments (segs : List (List Char)) : List Char :=
  List.intercalate ['/'] segs

/-- The result record of `urllib.parse.urlparse`. -/
structure UrlParseResult where
  scheme : String
  netloc : String
  path : String
  params : String
  query : String
  fragment : String
deriving Repr, DecidableEq

/-- Intermediate split of a URL as in `urllib.parse.urlsplit`
with a default scheme: scheme, netloc, path, query, fragment. -/
def urlsplitLC (defaultScheme : List Char) (url : List Char) :
    List Char × List Char × List Char × List Char × List Char :=
  let schemeRest : List Char × List Char :=
    match splitOnce url ':' with
    | some (pre, post) =>
      if pre.length > 0 && (pre.headD ' ').isAlpha && pre.all isSchemeChar then
        (pre.map Char.toLower, post)
      else (defaultScheme, url)
    | none => (defaultScheme, url)
  let scheme := schemeRest.1
  let rest := schemeRest.2
  let netlocRest : List Char × List Char :=
    match rest with
    | '/' :: '/' :: r =>
      let nl := r.takeWhile (fun c => c != '/' && c != '?' && c != '#')
      (nl, r.drop nl.length)
    | _ => ([], rest)
  let fr : List Char × List Char :=
    match splitOnce netlocRest.2 '#' with
    | some (a, b) => (a, b)
    | none => (netlocRest.2, [])
  let qu : List Char × List Char :=
    match splitOnce fr.1 '?' with
    | some (a, b) => (a, b)
    | none => (fr.1, [])
  (scheme, netlocRest.1, qu.1, qu.2, fr.2)

/-- `urllib.parse._splitparams`: split `;params` off the last path
segment. -/
def splitparamsLC (path : List Char) : List Char × List Char :=
  match splitLast path '/' with
  | some (before, after) =>
    (match splitOnce after ';' with
     | some (p, params) => (before ++ ('/' :: p), params)
     | none => (path, []))
  | none =>
    match splitOnce path ';' with
    | some (p, params) => (p, params)
    | none => (path, [])

/-- Schemes for which `urlparse` recognises path parameters
(`urllib.parse.uses_params`). -/
def uses_params : List String :=
  ["", "ftp", "hdl", "prospero", "http", "imap", "https", "shttp",
   "rtsp", "rtspu", "sip", "sips", "mms", "sftp", "tel"]

/-- Schemes supporting relative resolution (`urllib.parse.uses_relative`). -/
def uses_relative : List String :=
  ["", "ftp", "http", "gopher", "nntp", "imap", "wais", "file", "https",
   "shttp", "mms", "prospero", "rtsp", "rtspu", "sftp", "svn", "svn+ssh",
   "ws", "wss"]

/-- Schemes with a network location (`urllib.parse.uses_netloc`). -/
def uses_netloc : List String :=
  ["", "ftp", "http", "gopher", "nntp", "telnet", "imap", "wais", "file",
   "mms", "https", "shttp", "snews", "prospero", "rtsp", "rtspu", "rsync",
   "svn", "svn+ssh", "sftp", "nfs", "git", "git+ssh", "ws", "wss"]

/-- `urllib.parse.urlparse` with a default scheme. -/
def urlparseWithDefault (url : String) (defaultScheme : String) : UrlParseResult :=
  let r := urlsplitLC defaultScheme.toList url.toList
  let scheme := String.mk r.1
  let netloc := String.mk r.2.1
  let path := r.2.2.1
  let query := String.mk r.2.2.2.1
  let fragment := String.mk r.2.2.2.2
  let pp : List Char × List Char :=
    if uses_params.contains scheme && path.contains ';' then splitparamsLC path
    else (path, [])
  { scheme := scheme, netloc := netloc, path := String.mk pp.1,
    params := String.mk pp.2, query := query, fragment := fragment }

/-- `urllib.parse.urlparse` with the empty default scheme. -/
def urlparse (url : String) : UrlParseResult :=
  urlparseWithDefault url ""

/-- `urllib.parse.urlunsplit`. -/
def urlunsplit (scheme netloc path query fragment : String) : String :=
  let url := path
  let url :=
    if netloc != "" || (url != "" && url.toList.take 2 == ['/', '/']) then
      (let u := if url != "" && url.toList.take 1 != ['/'] then "/" ++ url else url
       "//" ++ netloc ++ u)
    else url
  let url := if scheme != "" then scheme ++ ":" ++ url else url
  let url := if query != "" then url ++ "?" ++ query else url
  if fragment != "" then url ++ "#" ++ fragment else url

/-- `urllib.parse.urlunparse`. -/
def urlunparse (scheme netloc path params query fragment : String) : String :=
  let path := if params != "" then path ++ ";" ++ params else path
  urlunsplit scheme netloc path query fragment

/-- `segments[1:-1] = filter(None, segments[1:-1])`: drop empty segments
from all but the first and last positions. -/
def filterMiddle : List (List Char) → List (List Char)
  | [] => []
  | [x] => [x]
  | x :: rest =>
    match rest.getLast? with
    | none => [x]
    | some last => x :: ((rest.dropLast.filter (fun s => !s.isEmpty)) ++ [last])

/-- The dot-segment resolution loop of `urllib.parse.urljoin`. -/
def resolveSegments (segments : List (List Char)) : List (List Char) :=
  segments.foldl
    (fun acc seg =>
      if seg == ['.', '.'] then acc.dropLast
      else if seg == ['.'] then acc
      else acc ++ [seg]) []

/-- `urllib.parse.urljoin`, following the CPython implementation. -/
def urljoin (base url : String) : String :=
  if base == "" then url
  else if url == "" then base
  else
    let b := urlparseWithDefault base ""
    let r := urlparseWithDefault url b.scheme
    if r.scheme != b.scheme || !(uses_relative.contains r.scheme) then url
    else
      let netloc2 :=
        if uses_netloc.contains r.scheme then
          (if r.netloc != "" then r.netloc else b.netloc)
        else r.netloc
      if uses_netloc.contains r.scheme && r.netloc != "" then
        urlunparse r.scheme r.netloc r.path r.params r.query r.fragment
      else if r.path == "" && r.params == "" then
        urlunparse r.scheme netloc2 b.path b.params
          (if r.query == "" then b.query else r.query) r.fragment
      else
        let base_parts0 := splitOnChar b.path.toList '/'
        let base_parts :=
          if !(base_parts0.getLastD []).isEmpty then base_parts0.dropLast else base_parts0
        let segments :=
          if r.path.toList.take 1 == ['/'] then splitOnChar r.path.toList '/'
          else filterMiddle (base_parts ++ splitOnChar r.path.toList '/')
        let resolved := resolveSegments segments
        let resolved :=
          if segments.getLastD [] == ['.', '.'] || segments.getLastD [] == ['.'] then
            resolved ++ [[]]
          else resolved
        let joined := joinSegments resolved
        urlunparse r.scheme netloc2
          (if joined.isEmpty then "/" else String.mk joined)
          r.params r.query r.fragment

example : (urlparse "https://example.com/news/2026/02/ai-update").path = "/news/2026/02/ai-update" := by decide
example : (urlparse "https://example.com/news?x=1#frag").netloc = "example.com" := by decide
example : urljoin "https://example.com/news" "/news/2026/02/ai-update" = "https://example.com/news/2026/02/ai-update" := by decide
example : urljoin "https://example.com/a/b" "c/d" = "https://example.com/a/c/d" := by decide
example : urljoin "https://example.com/a/b" "https://other.org/x" = "https://other.org/x" := by decide
example : normalizeWS "  Alpha\n Beta  " = "Alpha Beta" := by decide
example : strContains "https://example.com/news/login" "login" = true := by decide
example : strContains "abc" "bd" = false := by decide

/-!
URL classifier: `looks_like_article` (src/webscrape.py lines 20-61).
-/

/-- The blacklist `bad` of `looks_like_article`. -/
def bad : List String :=
  ["login", "signup", "subscribe", "register", "forgot-password",
   "category", "tag", "author", "archive", "page=", "#",
   "javascript:", "mailto:", "contact", "about-us", "privacy",
   "terms-of-use", "terms-and-conditions", "cookie", "sitemap",
   "disclaimer", "help", "faq", "feedback", "advertisement",
   "ads", "sponsored", "careers", "jobs", "partner", "advertise",
   "media-kit", "benefits", "pricing", "plan", "subscription",
   "account", "profile", "settings", "dashboard", "newsletter",
   "download", ".pdf", ".zip", ".doc", ".mp4", ".jpg", ".png",
   "rss", "feed", "xml", "json", ".css", ".js", "api/", "admin",
   "search?", "q=", "s=", "gallery", "video", "image", "photo"]

/-- The whitelist `good` of `looks_like_article`. -/
def good : List String :=
  ["article", "news", "press", "release", "post", "blog", "story",
   "breaking", "report", "analysis", "update", "alert", "headline",
   "coverage", "dispatch", "bulletin", "feature", "interview"]

/-- Does the list start with four digits (`re.search` pattern `\d\d\d\d`
tried at this position)? -/
def startsDigit4 : List Char → Bool
  | a :: b :: c :: d :: _ => a.isDigit && b.isDigit && c.isDigit && d.isDigit
  | _ => false

/-- Does the list start with two digits followed by a slash? -/
def startsDigit2Slash : List Char → Bool
  | a :: b :: c :: _ => a.isDigit && b.isDigit && c == '/'
  | _ => false

/-- `re.search`: does the pattern match at some position of the list? -/
def hasMatch (p : List Char → Bool) : List Char → Bool
  | [] => p []
  | c :: rest => p (c :: rest) || hasMatch p rest

/-- Python `str.lower()` on ASCII text, character by character. -/
def pyLower (s : String) : String :=
  String.mk (s.toList.map Char.toLower)

/-- `looks_like_article` (src/webscrape.py lines 20-61): lower-case the
URL, reject on a blacklisted substring, reject unless a whitelisted
substring occurs, reject when the parsed path has fewer than two `/`
characters, then accept exactly when the path contains a hyphen, a
four-digit run, or two digits followed by `/`. -/
def looks_like_article (url : String) : Bool :=
  let url := pyLower url
  if bad.any (fun b => strContains url b) then false
  else if !(good.any (fun g => strContains url g)) then false
  else
    let path := (urlparse url).path
    if countChar path '/' < 2 then false
    else if strContains path "-" || hasMatch startsDigit4 path.toList
            || hasMatch startsDigit2Slash path.toList then true
    else false

example : looks_like_article "https://example.com/news/2026/02/ai-update" = true := by decide
example : looks_like_article "https://example.com/news/login" = false := by decide
example : looks_like_article "https://example.com/article" = false := by decide

/-!
Structured-data extraction: `extract_json_ld` (src/webscrape.py
lines 68-89).  A parsed JSON payload is embedded as `PyJson`; each
structured-data script element is embedded by its observable behaviour:
falsy text content, a `json.loads` failure, or a parsed payload.
-/

/-- A Python value produced by `json.loads`. -/
inductive PyJson where
  | jnull : PyJson
  | jbool : Bool → PyJson
  | jnum : Int → PyJson
  | jstr : String → PyJson
  | jarr : List PyJson → PyJson
  | jobj : List (String × PyJson) → PyJson
deriving Repr

/-- Python truthiness of such a value (`if x:`). -/
def pyTruthy : PyJson → Bool
  | .jnull => false
  | .jbool b => b
  | .jnum n => n != 0
  | .jstr s => s != ""
  | .jarr l => !l.isEmpty
  | .jobj l => !l.isEmpty

/-- Python `dict.get`: the value bound to a key, where a later duplicate
key shadows an earlier one, `none` when absent. -/
def pyDictGet (fields : List (String × PyJson)) (k : String) : Option PyJson :=
  (fields.reverse.find? (fun p => p.1 == k)).map (fun p => p.2)

/-- `item.get("@type") in ["NewsArticle", "Article", "BlogPosting"]`. -/
def articleTypes : List String :=
  ["NewsArticle", "Article", "BlogPosting"]

/-- `isinstance(item, dict) and item.get("@type") in [...]`: the item is
a dict whose `@type` value equals one of the three article type strings. -/
def isMatchingItem : PyJson → Bool
  | .jobj fields =>
    (match pyDictGet fields "@type" with
     | some (.jstr t) => articleTypes.contains t
     | _ => false)
  | _ => false

/-- Observable behaviour of one `script[type='application/ld+json']`
element: `noText` when `text_content()` is falsy (the loop continues),
`malformed` when `json.loads` raises on its text, `parsed v` when it
parses to `v`. -/
inductive ScriptElem where
  | noText : ScriptElem
  | malformed : ScriptElem
  | parsed : PyJson → ScriptElem
deriving Repr

/-- `extract_json_ld` (src/webscrape.py lines 68-89).  The single
`try/except` wraps the whole loop over script elements, so a
`json.loads` failure aborts the loop and the function returns `None`;
a parsed list payload is scanned for a matching dict member, a parsed
dict payload is checked directly, and any other payload moves on to the
next script. -/
def extract_json_ld : List ScriptElem → Option PyJson
  | [] => none
  | .noText :: rest => extract_json_ld rest
  | .malformed :: _ => none
  | .parsed v :: rest =>
    match v with
    | .jarr items =>
      (match items.find? isMatchingItem with
       | some item => some item
       | none => extract_json_ld rest)
    | .jobj _ => if isMatchingItem v then some v else extract_json_ld rest
    | _ => extract_json_ld rest

/-!
Metadata extraction: `get_meta`, `extract_first` and `scrape_article`
(src/webscrape.py lines 92-183).
-/

/-- Result of `page.query_selector(sel)` together with the subsequent
`text_content()` read: the query raised, matched nothing, or matched an
element with the given text content (`none` for a null text). -/
inductive QueryRes where
  | qerr : QueryRes
  | qnone : QueryRes
  | qelem : Option String → QueryRes
deriving Repr

/-- Observable behaviour of one rendered article page: whether
`page.goto` raises, the structured-data script elements, the
`content` attribute reads of `get_meta` (outer `none`: no matching meta
element; inner option: the attribute value), and the per-selector DOM
query results. -/
structure ArticlePage where
  navFails : Bool
  scripts : List ScriptElem
  metaAttr : String → Option (Option String)
  dom : String → QueryRes

/-- `get_meta` (src/webscrape.py lines 92-96): the content attribute of
the first matching meta element, `None` when the element or the
attribute is missing. -/
def get_meta (page : ArticlePage) (name : String) : Option String :=
  match page.metaAttr name with
  | some content => content
  | none => none

/-- `HEADINGS` selector list (src/webscrape.py line 116). -/
def HEADINGS : List String :=
  ["h1", "[class*=\x27title\x27]", "[class*=\x27headline\x27]"]

/-- `SUBS` selector list (src/webscrape.py line 117). -/
def SUBS : List String :=
  ["h2", "[class*=\x27subtitle\x27]", "[class*=\x27excerpt\x27]", "article p"]

/-- `DATES` selector list (src/webscrape.py line 118). -/
def DATES : List String :=
  ["time", "[class*=\x27date\x27]", "[class*=\x27publish\x27]"]

/-- `extract_first` (src/webscrape.py lines 103-113): first selector
whose element text, stripped, is longer than five characters; selector
errors and misses fall through to the next selector. -/
def extract_first (page : ArticlePage) : List String → Option String
  | [] => none
  | sel :: rest =>
    match page.dom sel with
    | .qerr => extract_first page rest
    | .qnone => extract_first page rest
    | .qelem txt =>
      let t := pyStrip (txt.getD "")
      if t.toList.length > 5 then some t else extract_first page rest

/-- An entry of the `data` dict built by `scrape_article`: `url` is
always a string; the three metadata fields hold whatever Python value
the winning tier produced (`jnull` for `None`). -/
structure ArticleData where
  url : String
  heading : PyJson
  subheading : PyJson
  date : PyJson
deriving Repr

/-- Lift the string-or-`None` result of `get_meta`/`extract_first` to a
Python value. -/
def optStrToPy : Option String → PyJson
  | none => .jnull
  | some s => .jstr s

/-- `ld.get(k)` for the dict returned by `extract_json_ld`
(`jnull` embeds Python `None`). -/
def pyGetField (v : PyJson) (k : String) : PyJson :=
  match v with
  | .jobj fields => (pyDictGet fields k).getD .jnull
  | _ => .jnull

/-- The cleaning loop of `scrape_article` (lines 170-173): whitespace
normalization applied to string values only. -/
def cleanVal : PyJson → PyJson
  | .jstr s => .jstr (normalizeWS s)
  | v => v

/-- `scrape_article` (src/webscrape.py lines 125-183): `none` when
`page.goto` raises (the `except` path); otherwise the three-tier
fill-in of heading, subheading and date — structured data first, then
`og:` social metadata, then DOM selector fallbacks, each lower tier
consulted only when the field's current value is falsy — followed by
the cleaning loop over all dict entries (the url string included). -/
def scrape_article (page : ArticlePage) (url : String) : Option ArticleData :=
  if page.navFails then none
  else
    let ld := (extract_json_ld page.scripts).getD .jnull
    let h0 := if pyTruthy ld then pyGetField ld "headline" else .jnull
    let s0 := if pyTruthy ld then pyGetField ld "description" else .jnull
    let d0 := if pyTruthy ld then pyGetField ld "datePublished" else .jnull
    let h1 := if !(pyTruthy h0) then optStrToPy (get_meta page "og:title") else h0
    let s1 := if !(pyTruthy s0) then optStrToPy (get_meta page "og:description") else s0
    let d1 := if !(pyTruthy d0) then optStrToPy (get_meta page "article:published_time") else d0
    let h2 := if !(pyTruthy h1) then optStrToPy (extract_first page HEADINGS) else h1
    let s2 := if !(pyTruthy s1) then optStrToPy (extract_first page SUBS) else s1
    let d2 := if !(pyTruthy d1) then optStrToPy (extract_first page DATES) else d1
    some { url := normalizeWS url, heading := cleanVal h2,
           subheading := cleanVal s2, date := cleanVal d2 }

/-!
Link discovery: `get_article_links` (src/webscrape.py lines 190-270)
and the driver `main` (lines 277-349).
-/

/-- `MAX_LINKS_PER_SITE` (src/webscrape.py line 12). -/
def MAX_LINKS_PER_SITE : Nat := 15

/-- `CONCURRENT_ARTICLES` (src/webscrape.py line 13): the width of the
per-site admission semaphore.  The semaphore bounds how many extraction
calls are in flight; it does not change which results `asyncio.gather`
returns nor their order, so it does not appear in the value-level
model. -/
def CONCURRENT_ARTICLES : Nat := 5

/-- `article_selectors` (src/webscrape.py lines 202-215). -/
def article_selectors : List String :=
  ["article a",
   "a[href*=\x27article\x27]",
   "a[href*=\x27news\x27]",
   "a[href*=\x27press\x27]",
   "a[href*=\x27post\x27]",
   ".article-link",
   ".news-link",
   ".post-link",
   ".story-link",
   "[class*=\x27article\x27] a",
   "[class*=\x27news\x27] a",
   "[class*=\x27post\x27] a"]

/-- Outcome of the per-selector loop body for one selector:
`err` when `query_selector_all` raises (caught by the per-selector
`except`, modelled as raising before any href is collected), or
`found hrefs` with the `href` attribute of each matched element in
order (`none` for a missing attribute). -/
inductive SelOutcome where
  | err : SelOutcome
  | found : List (Option String) → SelOutcome

/-- Observable behaviour of one rendered listing page: whether
`page.goto` raises (caught by the outer `except`), the outcome of each
targeted selector query, and the result of the
`eval_on_selector_all("a[href]", ...)` fallback (`none` when it
raises). -/
structure ListingPage where
  navFails : Bool
  selOutcome : String → SelOutcome
  fallbackAnchors : Option (List String)

/-- Hrefs a single selector contributes to `all_links`
(lines 219-227): the first 50 elements, keeping each truthy `href`
attribute. -/
def collectSelector : SelOutcome → List String
  | .err => []
  | .found hrefs =>
    (hrefs.take 50).filterMap
      (fun h => match h with
        | some s => if s != "" then some s else none
        | none => none)

/-- First-insertion-order deduplication, determinizing the Python `set`
accumulation (`all_links` and `clean`); the spec leaves the iteration
order of equally valid links unspecified. -/
def dedupAux (seen : List String) : List String → List String
  | [] => []
  | x :: rest =>
    if seen.contains x then dedupAux seen rest
    else x :: dedupAux (x :: seen) rest

/-- Deduplicate, keeping first occurrences. -/
def dedup (l : List String) : List String :=
  dedupAux [] l

/-- The `all_links` set after the selector loop and the fallback
(lines 217-238): hrefs of all targeted selectors, or, when the targeted
selectors found nothing, every anchor href from the fallback query
(nothing if the fallback raises). -/
def collectedLinks (page : ListingPage) : List String :=
  let selLinks := dedup (List.flatten (article_selectors.map
    (fun sel => collectSelector (page.selOutcome sel))))
  if selLinks.isEmpty then
    (match page.fallbackAnchors with
     | none => []
     | some l => dedup l)
  else selLinks

/-- The body of the cleaning loop (lines 245-258) for one collected
href: skip falsy links, resolve against the base URL, keep the absolute
URL when its netloc contains the base domain and it passes the URL
classifier. -/
def cleanLink (base_url link : String) : Option String :=
  if link == "" then none
  else if strContains (urlparse (urljoin base_url link)).netloc
          ((urlparse base_url).netloc) then
    (if looks_like_article (urljoin base_url link) then
       some (urljoin base_url link)
     else none)
  else none

/-- `get_article_links` (src/webscrape.py lines 190-270): `[]` when
navigation raises (the outer `except` path at line 268-270); otherwise
the cleaned, deduplicated links truncated to `MAX_LINKS_PER_SITE`. -/
def get_article_links (page : ListingPage) (base_url : String) : List String :=
  if page.navFails then []
  else
    (dedup ((collectedLinks page).filterMap (cleanLink base_url))).take
      MAX_LINKS_PER_SITE

/-- Per-site environment of the driver loop: the seed URL, the listing
page the discovery navigation reaches, and the article page the site's
browsing context serves for each discovered link. -/
structure SiteEnv where
  url : String
  listing : ListingPage
  pageFor : String → ArticlePage

/-- The per-site task list
`tasks = [worker(l) for l in links]` (line 336): one extraction result
per discovered link, in discovery (submission) order. -/
def siteTasks (env : SiteEnv) : List (Option ArticleData) :=
  (get_article_links env.listing env.url).map
    (fun l => scrape_article (env.pageFor l) l)

set_option linter.unusedVariables false in
/-- `asyncio.gather(*tasks)` (line 337): by the documented semantics of
`gather`, the settled results are returned in the order of the
submitted task list, regardless of the completion schedule.  The
`completion` argument (task indices in finishing order) is the schedule
under which the event loop ran the tasks. -/
def asyncGather (tasks : List (Option ArticleData)) (completion : List Nat) :
    List (Option ArticleData) :=
  tasks

/-- The settled results listed in completion order under the schedule
`completion`: position `k` holds the result of the task that finished
`k`-th.  This is what the claimed completion-order aggregation would
collect. -/
def completionOrderResults (tasks : List (Option ArticleData))
    (completion : List Nat) : List (Option ArticleData) :=
  completion.filterMap (fun i => tasks[i]?)

/-- One iteration of the site loop under an explicit completion
schedule: gather the extraction results and keep the truthy ones
(`results.extend([r for r in site_results if r])`, line 339; a `data`
dict is always truthy, so exactly the `None` results are dropped). -/
def processSiteSched (env : SiteEnv) (completion : List Nat) : List ArticleData :=
  (asyncGather (siteTasks env) completion).filterMap id

/-- One iteration of the site loop (lines 322-347). -/
def processSite (env : SiteEnv) : List ArticleData :=
  (siteTasks env).filterMap id

/-- The driver `main` (lines 277-349) restricted to its core: the
sequential fold over seed sites accumulating `results`. -/
def runMain (sites : List SiteEnv) : List ArticleData :=
  sites.foldl (fun results env => results ++ processSite env) []

/-!
Concrete page and site behaviours used to instantiate the theorems.
-/

/-- A seed listing URL on `example.com`. -/
def newsBase : String := "https://example.com/news"

/-- An article-shaped relative href on the seed site. -/
def newsHref : String := "/news/2026/02/ai-update"

/-- The absolute URL `urljoin` resolves `newsHref` to. -/
def newsFull : String := "https://example.com/news/2026/02/ai-update"

/-- A second article-shaped relative href on the seed site. -/
def storyHref : String := "/news/2026/02/second-story"

/-- The absolute URL for `storyHref`. -/
def storyFull : String := "https://example.com/news/2026/02/second-story"

/-- A listing page on which every targeted selector finds the same
single article link. -/
def simpleListing : ListingPage :=
  { navFails := false,
    selOutcome := fun _ => SelOutcome.found [some newsHref],
    fallbackAnchors := some [] }

/-- A listing page whose first targeted selector raises during querying
while another targeted selector still finds a valid article link. -/
def errListing : ListingPage :=
  { navFails := false,
    selOutcome := fun s =>
      if s == "article a" then SelOutcome.err
      else if s == "a[href*=\x27news\x27]" then SelOutcome.found [some newsHref]
      else SelOutcome.found [],
    fallbackAnchors := some [] }

/-- A listing page whose navigation raises. -/
def navFailListing : ListingPage :=
  { navFails := true,
    selOutcome := fun _ => SelOutcome.found [],
    fallbackAnchors := some [] }

/-- A listing page on which one selector finds two article links. -/
def dualListing : ListingPage :=
  { navFails := false,
    selOutcome := fun s =>
      if s == "article a" then SelOutcome.found [some newsHref, some storyHref]
      else SelOutcome.found [],
    fallbackAnchors := some [] }

/-- An article page that renders but on which every extraction tier
comes up empty: no structured-data scripts, no meta tags, no DOM
matches. -/
def blankPage : ArticlePage :=
  { navFails := false,
    scripts := [],
    metaAttr := fun _ => none,
    dom := fun _ => QueryRes.qnone }

/-- An article page carrying only an `og:title` of `Heading Alpha`. -/
def pageAlpha : ArticlePage :=
  { navFails := false,
    scripts := [],
    metaAttr := fun n => if n == "og:title" then some (some "Heading Alpha") else none,
    dom := fun _ => QueryRes.qnone }

/-- An article page carrying only an `og:title` of `Heading Beta`. -/
def pageBeta : ArticlePage :=
  { navFails := false,
    scripts := [],
    metaAttr := fun n => if n == "og:title" then some (some "Heading Beta") else none,
    dom := fun _ => QueryRes.qnone }

/-- A structured-data payload of declared type `Article` whose headline
carries raw whitespace. -/
def ldC6 : PyJson :=
  PyJson.jobj [("@type", PyJson.jstr "Article"),
               ("headline", PyJson.jstr "  Alpha\n Beta  ")]

/-- An article page where all three tiers could answer: structured
data (`ldC6`), an `og:title`, and a long DOM heading. -/
def pageC6 : ArticlePage :=
  { navFails := false,
    scripts := [ScriptElem.parsed ldC6],
    metaAttr := fun n => if n == "og:title" then some (some "Meta Title") else none,
    dom := fun _ => QueryRes.qelem (some "Dom Fallback Heading") }

/-- A structured-data payload whose headline is the empty string. -/
def ldC10 : PyJson :=
  PyJson.jobj [("@type", PyJson.jstr "Article"),
               ("headline", PyJson.jstr "")]

/-- An article page with an empty structured-data headline and a
non-empty `og:title`. -/
def pageC10 : ArticlePage :=
  { navFails := false,
    scripts := [ScriptElem.parsed ldC10],
    metaAttr := fun n => if n == "og:title" then some (some "Og Title Wins") else none,
    dom := fun _ => QueryRes.qnone }

/-- A well-formed structured-data payload of declared type
`NewsArticle`. -/
def laterScript : PyJson :=
  PyJson.jobj [("@type", PyJson.jstr "NewsArticle"),
               ("headline", PyJson.jstr "Later Headline")]

/-- An article page whose first structured-data script is malformed
while its second is well-formed; an `og:title` is also present. -/
def pageC7 : ArticlePage :=
  { navFails := false,
    scripts := [ScriptElem.malformed, ScriptElem.parsed laterScript],
    metaAttr := fun n => if n == "og:title" then some (some "Fallback Og Title") else none,
    dom := fun _ => QueryRes.qnone }

/-- A site whose single discovered article page renders but yields no
field from any tier. -/
def envAllFail : SiteEnv :=
  { url := newsBase, listing := simpleListing, pageFor := fun _ => blankPage }

/-- A site whose listing navigation raises. -/
def envNavFail : SiteEnv :=
  { url := newsBase, listing := navFailListing, pageFor := fun _ => blankPage }

/-- A site with two discovered links whose pages carry distinct
headings. -/
def envTwo : SiteEnv :=
  { url := newsBase, listing := dualListing,
    pageFor := fun l => if l == newsFull then pageAlpha else pageBeta }

/-- The record extracted from `pageAlpha` at `newsFull`. -/
def recAlpha : ArticleData :=
  { url := newsFull, heading := PyJson.jstr "Heading Alpha",
    subheading := PyJson.jnull, date := PyJson.jnull }

/-- The record extracted from `pageBeta` at `storyFull`. -/
def recBeta : ArticleData :=
  { url := storyFull, heading := PyJson.jstr "Heading Beta",
    subheading := PyJson.jnull, date := PyJson.jnull }

example : get_article_links simpleListing newsBase = [newsFull] := by decide
example : get_article_links dualListing newsBase = [newsFull, storyFull] := by decide
example : scrape_article blankPage newsFull
    = some { url := newsFull, heading := PyJson.jnull,
             subheading := PyJson.jnull, date := PyJson.jnull } := by rfl
example : scrape_article pageAlpha newsFull = some recAlpha := by rfl

/-!
Helper lemmas.
-/

/-- Membership in the deduplicated list implies membership in the
original list. -/
theorem mem_dedupAux {u : String} :
    ∀ (seen l : List String), u ∈ dedupAux seen l → u ∈ l := by
  intro seen l
  induction l generalizing seen with
  | nil => intro h; cases h
  | cons x rest ih =>
    intro h
    simp only [dedupAux] at h
    split at h
    · exact List.mem_cons_of_mem _ (ih _ h)
    · rcases List.mem_cons.mp h with h1 | h2
      · exact h1 ▸ List.mem_cons_self _ _
      · exact List.mem_cons_of_mem _ (ih _ h2)

/-- Membership in `dedup l` implies membership in `l`. -/
theorem mem_of_mem_dedup {u : String} {l : List String} (h : u ∈ dedup l) : u ∈ l :=
  mem_dedupAux [] l h

/-- A link the cleaning loop keeps has a netloc containing the base
domain. -/
theorem cleanLink_netloc {base_url link u : String}
    (h : cleanLink base_url link = some u) :
    strContains (urlparse u).netloc ((urlparse base_url).netloc) = true := by
  unfold cleanLink at h
  split at h
  · cases h
  · split at h
    · split at h
      · injection h with h1
        subst h1
        assumption
      · cases h
    · cases h

/-- The item `extract_json_ld` returns passed the type check. -/
theorem extract_json_ld_isMatching :
    ∀ (l : List ScriptElem) (v : PyJson),
      extract_json_ld l = some v → isMatchingItem v = true := by
  intro l
  induction l with
  | nil => intro v h; cases h
  | cons s rest ih =>
    intro v h
    cases s with
    | noText => exact ih v h
    | malformed => cases h
    | parsed p =>
      cases p with
      | jnull => exact ih v h
      | jbool b => exact ih v h
      | jnum n => exact ih v h
      | jstr t => exact ih v h
      | jarr items =>
        simp only [extract_json_ld] at h
        cases hf : items.find? isMatchingItem with
        | none => rw [hf] at h; exact ih v h
        | some item =>
          rw [hf] at h
          injection h with h1
          subst h1
          exact List.find?_some hf
      | jobj fields =>
        simp only [extract_json_ld] at h
        split at h
        · injection h with h1; subst h1; assumption
        · exact ih v h

/-- A dict that passed the type check is truthy. -/
theorem isMatching_truthy {v : PyJson} (h : isMatchingItem v = true) :
    pyTruthy v = true := by
  cases v with
  | jobj fields =>
    cases fields with
    | nil => simp [isMatchingItem, pyDictGet] at h
    | cons f fs => simp [pyTruthy]
  | jnull => simp [isMatchingItem] at h
  | jbool b => simp [isMatchingItem] at h
  | jnum n => simp [isMatchingItem] at h
  | jstr t => simp [isMatchingItem] at h
  | jarr l => simp [isMatchingItem] at h

/-- Truthiness of an embedded Python string. -/
theorem pyTruthy_jstr (s : String) : pyTruthy (PyJson.jstr s) = (s != "") := rfl

/-- A malformed script aborts `extract_json_ld` outright. -/
theorem extract_json_ld_malformed (rest : List ScriptElem) :
    extract_json_ld (ScriptElem.malformed :: rest) = none := rfl

/-- `runMain` peels off the accumulator. -/
theorem runMainAux :
    ∀ (l : List SiteEnv) (init : List ArticleData),
      l.foldl (fun acc env => acc ++ processSite env) init
        = init ++ l.foldl (fun acc env => acc ++ processSite env) [] := by
  intro l
  induction l with
  | nil => intro init; simp
  | cons e rest ih =>
    intro init
    simp only [List.foldl_cons]
    rw [ih (init ++ processSite e), ih (([] : List ArticleData) ++ processSite e)]
    simp

/-- `runMain` on a cons. -/
theorem runMain_cons (env : SiteEnv) (sites : List SiteEnv) :
    runMain (env :: sites) = processSite env ++ runMain sites := by
  unfold runMain
  simp only [List.foldl_cons, List.nil_append]
  exact runMainAux sites (processSite env)

/-- `runMain` distributes over append. -/
theorem runMain_append (l1 l2 : List SiteEnv) :
    runMain (l1 ++ l2) = runMain l1 ++ runMain l2 := by
  induction l1 with
  | nil => simp [runMain]
  | cons e rest ih =>
    rw [List.cons_append, runMain_cons, runMain_cons, ih, List.append_assoc]

/-!
Claim theorems.
-/

/-- Claim C8: any URL whose lower-cased text contains a blacklisted
substring is rejected by the classifier, regardless of whitelist or
shape content — the blacklist test runs first and is decisive. -/
theorem claim_C8 (url b : String) (hb : b ∈ bad)
    (hc : strContains (pyLower url) b = true) :
    looks_like_article url = false := by
  have hany : bad.any (fun x => strContains (pyLower url) x) = true :=
    List.any_eq_true.mpr ⟨b, hb, hc⟩
  simp [looks_like_article, hany]

/-- Witness for C8 at the spec's own example. -/
theorem claim_C8_witness :
    looks_like_article "https://example.com/news/login" = false :=
  claim_C8 "https://example.com/news/login" "login" (by decide) (by decide)

/-- Claim C9: a URL that passes the blacklist and whitelist tests but
whose parsed path has strictly fewer than two `/` characters is
rejected; in particular the two boundary examples of the spec. -/
theorem claim_C9 :
    (∀ url : String,
       bad.all (fun b => !(strContains (pyLower url) b)) = true →
       good.any (fun g => strContains (pyLower url) g) = true →
       countChar ((urlparse (pyLower url)).path) '/' < 2 →
       looks_like_article url = false)
    ∧ looks_like_article "https://example.com/article" = false
    ∧ looks_like_article "https://example.com/news/2026/02/ai-update" = true := by
  refine ⟨?_, by decide, by decide⟩
  intro url h1 h2 h3
  have hany : bad.any (fun x => strContains (pyLower url) x) = false := by
    rw [List.any_eq_false]
    intro b hb
    have hx := List.all_eq_true.mp h1 b hb
    simpa using hx
  simp [looks_like_article, hany, h2, h3]

/-- Witness for C9's universal part at a concrete boundary input. -/
theorem claim_C9_witness :
    looks_like_article "https://example.com/article" = false :=
  claim_C9.1 "https://example.com/article" (by decide) (by decide) (by decide)

/-- Claim C2: link discovery never returns more than
`MAX_LINKS_PER_SITE` (15) candidate links, whatever the rendered
listing page contains. -/
theorem claim_C2 (page : ListingPage) (base_url : String) :
    (get_article_links page base_url).length ≤ MAX_LINKS_PER_SITE := by
  unfold get_article_links
  split
  · simp
  · rw [List.length_take]
    exact Nat.min_le_left _ _

/-- Claim C3: every URL link discovery returns has a network-location
component containing the seed site's domain as a substring. -/
theorem claim_C3 (page : ListingPage) (base_url u : String)
    (h : u ∈ get_article_links page base_url) :
    strContains (urlparse u).netloc ((urlparse base_url).netloc) = true := by
  unfold get_article_links at h
  split at h
  · cases h
  · have h1 : u ∈ dedup ((collectedLinks page).filterMap (cleanLink base_url)) :=
      List.take_subset _ _ h
    obtain ⟨link, _, hcl⟩ := List.mem_filterMap.mp (mem_of_mem_dedup h1)
    exact cleanLink_netloc hcl

/-- Witness for C3 at a concrete discovered link. -/
theorem claim_C3_witness :
    strContains (urlparse newsFull).netloc ((urlparse newsBase).netloc) = true :=
  claim_C3 simpleListing newsBase newsFull (by decide)

/-- Claim C6: when the structured-data tier supplies a non-empty
headline, the returned record's heading is exactly that value after
whitespace normalization, whatever the social-metadata or DOM tiers
would have produced (the page is arbitrary). -/
theorem claim_C6 (page : ArticlePage) (url : String) (v : PyJson) (s : String)
    (hnav : page.navFails = false)
    (hld : extract_json_ld page.scripts = some v)
    (hh : pyGetField v "headline" = PyJson.jstr s)
    (hs : s ≠ "") :
    ∃ r, scrape_article page url = some r
      ∧ r.heading = PyJson.jstr (normalizeWS s) := by
  have ht : pyTruthy v = true :=
    isMatching_truthy (extract_json_ld_isMatching _ _ hld)
  have hs' : pyTruthy (PyJson.jstr s) = true := by
    simp only [pyTruthy, bne_iff_ne, ne_eq]
    exact hs
  simp only [scrape_article, hnav, hld, Option.getD_some, ht, if_true, hh, hs',
    Bool.not_true, Bool.false_eq_true, if_false]
  exact ⟨_, rfl, by simp [cleanVal]⟩

/-- Witness for C6: page with all three tiers populated; the
structured-data headline wins. -/
theorem claim_C6_witness :
    ∃ r, scrape_article pageC6 newsFull = some r
      ∧ r.heading = PyJson.jstr (normalizeWS "  Alpha\n Beta  ") :=
  claim_C6 pageC6 newsFull ldC6 "  Alpha\n Beta  " rfl rfl rfl (by decide)

/-- Claim C10: tier fallback triggers on a falsy value, not only on a
missing one — an empty-string structured-data headline is overwritten
by the social-metadata tier's `og:title`. -/
theorem claim_C10 (page : ArticlePage) (url : String) (v : PyJson) (t : String)
    (hnav : page.navFails = false)
    (hld : extract_json_ld page.scripts = some v)
    (hh : pyGetField v "headline" = PyJson.jstr "")
    (hm : page.metaAttr "og:title" = some (some t))
    (ht : t ≠ "") :
    ∃ r, scrape_article page url = some r
      ∧ r.heading = PyJson.jstr (normalizeWS t) := by
  have htr : pyTruthy v = true :=
    isMatching_truthy (extract_json_ld_isMatching _ _ hld)
  have hb : (t != "") = true := bne_iff_ne.mpr ht
  simp only [scrape_article, hnav, hld, Option.getD_some, htr, if_true, hh,
    get_meta, hm, optStrToPy, pyTruthy_jstr, bne_self_eq_false,
    Bool.not_false, hb, Bool.not_true, Bool.false_eq_true, if_false]
  exact ⟨_, rfl, by simp [cleanVal]⟩

/-- Witness for C10: the empty structured-data headline is replaced by
the `og:title` value. -/
theorem claim_C10_witness :
    ∃ r, scrape_article pageC10 newsFull = some r
      ∧ r.heading = PyJson.jstr (normalizeWS "Og Title Wins") :=
  claim_C10 pageC10 newsFull ldC10 "Og Title Wins" rfl rfl rfl rfl (by decide)

/-- Counterexample to claim C7 as stated: with a malformed first
script, the structured-data tier returns nothing at all, although the
well-formed later script alone would supply the matching item — so the
remaining scripts are not scanned. -/
theorem claim_C7_cex :
    extract_json_ld [ScriptElem.malformed, ScriptElem.parsed laterScript] = none
    ∧ extract_json_ld [ScriptElem.parsed laterScript] = some laterScript
    ∧ (none : Option PyJson) ≠ some laterScript :=
  ⟨rfl, rfl, by simp⟩

/-- Claim C7 amended: a JSON parse error on any script element aborts
the whole structured-data tier (the `try/except` wraps the loop), so
`extract_json_ld` returns `None` without scanning the remaining
scripts, and extraction proceeds to the lower tiers (here `og:title`). -/
theorem claim_C7 :
    (∀ rest : List ScriptElem,
        extract_json_ld (ScriptElem.malformed :: rest) = none)
    ∧ (∀ (page : ArticlePage) (url t : String) (rest : List ScriptElem),
        page.navFails = false →
        page.scripts = ScriptElem.malformed :: rest →
        page.metaAttr "og:title" = some (some t) →
        t ≠ "" →
        ∃ r, scrape_article page url = some r
          ∧ r.heading = PyJson.jstr (normalizeWS t)) := by
  refine ⟨extract_json_ld_malformed, ?_⟩
  intro page url t rest hnav hscripts hm ht
  have hld : extract_json_ld page.scripts = none := by
    rw [hscripts]
    exact extract_json_ld_malformed rest
  have hb : (t != "") = true := bne_iff_ne.mpr ht
  simp only [scrape_article, hnav, hld, Option.getD_none, pyTruthy,
    Bool.false_eq_true, if_false, Bool.not_false, if_true,
    get_meta, hm, optStrToPy, hb, Bool.not_true]
  exact ⟨_, rfl, by simp [cleanVal]⟩

/-- Witness for the amended C7 at a concrete page. -/
theorem claim_C7_witness :
    extract_json_ld (ScriptElem.malformed :: [ScriptElem.parsed laterScript]) = none
    ∧ ∃ r, scrape_article pageC7 newsFull = some r
        ∧ r.heading = PyJson.jstr (normalizeWS "Fallback Og Title") :=
  ⟨claim_C7.1 [ScriptElem.parsed laterScript],
   claim_C7.2 pageC7 newsFull "Fallback Og Title" [ScriptElem.parsed laterScript]
     rfl rfl rfl (by decide)⟩

/-- Counterexample to claim C1 as stated: an error raised during
element querying (first targeted selector) does not make discovery
return an empty sequence — the other selectors' links are still
returned. -/
theorem claim_C1_cex :
    errListing.selOutcome "article a" = SelOutcome.err
    ∧ get_article_links errListing newsBase = [newsFull]
    ∧ get_article_links errListing newsBase ≠ [] :=
  ⟨rfl, by decide, by decide⟩

/-- Claim C1 amended: a navigation error is caught at the
discovery-call level and yields an empty sequence, while a
element-querying error is caught per selector and discovery continues;
in either case nothing propagates: a site whose listing navigation
raises contributes nothing and the run returns the other sites'
accumulated results. -/
theorem claim_C1 :
    (∀ (page : ListingPage) (base_url : String),
        page.navFails = true → get_article_links page base_url = [])
    ∧ (∀ (pre post : List SiteEnv) (env : SiteEnv),
        env.listing.navFails = true →
        runMain (pre ++ env :: post) = runMain pre ++ runMain post) := by
  have h1 : ∀ (page : ListingPage) (base_url : String),
      page.navFails = true → get_article_links page base_url = [] := by
    intro page base h
    unfold get_article_links
    rw [h]
    simp
  refine ⟨h1, ?_⟩
  intro pre post env h
  have hp : processSite env = [] := by
    unfold processSite siteTasks
    rw [h1 env.listing env.url h]
    rfl
  rw [runMain_append, runMain_cons, hp, List.nil_append]

/-- Witness for the amended C1 at a concrete failing site. -/
theorem claim_C1_witness :
    get_article_links navFailListing newsBase = []
    ∧ runMain [envNavFail] = runMain [] ++ runMain [] :=
  ⟨claim_C1.1 navFailListing newsBase rfl, claim_C1.2 [] [] envNavFail rfl⟩

/-- Counterexample to claim C4 as stated: a link whose page renders but
yields no field from any tier is still included in the run's output, as
a record whose heading (and every metadata field) is null. -/
theorem claim_C4_cex :
    runMain [envAllFail]
      = [{ url := newsFull, heading := PyJson.jnull,
           subheading := PyJson.jnull, date := PyJson.jnull }] := rfl

/-- Claim C4 amended: the aggregation filter drops exactly the links
whose extraction call failed (returned `None`, i.e. navigation raised);
every link whose page navigates successfully yields a record that is
included, even when all three tiers produced nothing. -/
theorem claim_C4 (env : SiteEnv) (link : String)
    (h1 : link ∈ get_article_links env.listing env.url)
    (h2 : (env.pageFor link).navFails = false) :
    ∃ r, scrape_article (env.pageFor link) link = some r
      ∧ r ∈ processSite env := by
  have hsome : ∃ r, scrape_article (env.pageFor link) link = some r := by
    simp only [scrape_article, h2, Bool.false_eq_true, if_false]
    exact ⟨_, rfl⟩
  obtain ⟨r, hr⟩ := hsome
  refine ⟨r, hr, ?_⟩
  unfold processSite
  rw [List.mem_filterMap]
  refine ⟨some r, ?_, rfl⟩
  rw [← hr]
  unfold siteTasks
  exact List.mem_map_of_mem _ h1

/-- Witness for the amended C4: the all-tiers-failed link's record is
in the site output. -/
theorem claim_C4_witness :
    ∃ r, scrape_article (envAllFail.pageFor newsFull) newsFull = some r
      ∧ r ∈ processSite envAllFail :=
  claim_C4 envAllFail newsFull (by decide) rfl

/-- Counterexample to claim C5 as stated: under a completion schedule
that finishes the second task first, the code's aggregation still lists
the records in submission order, which differs from the completion
order (the two records are distinct). -/
theorem claim_C5_cex :
    processSiteSched envTwo [1, 0] = [recAlpha, recBeta]
    ∧ (completionOrderResults (siteTasks envTwo) [1, 0]).filterMap id
        = [recBeta, recAlpha]
    ∧ recAlpha.heading ≠ recBeta.heading := by
  refine ⟨rfl, rfl, ?_⟩
  intro h
  simp only [recAlpha, recBeta] at h
  injection h with h1
  exact absurd h1 (by decide)

/-- Claim C5 amended: `asyncio.gather` returns results in submission
(discovery) order whatever the completion schedule, so the per-site
output is schedule-independent and equals the discovery-order list of
successful records; across sites, records appear grouped in seed-list
order. -/
theorem claim_C5 :
    (∀ (env : SiteEnv) (completion : List Nat),
        processSiteSched env completion = processSite env)
    ∧ (∀ sites : List SiteEnv,
        runMain sites = (sites.map processSite).flatten) := by
  refine ⟨fun env completion => rfl, ?_⟩
  intro sites
  induction sites with
  | nil => rfl
  | cons e rest ih =>
    rw [runMain_cons, List.map_cons, List.flatten_cons, ih]
